import Mathlib

/-!
Shallow embedding of the math-streak repository core, used to settle the
claims about its specification.

Sources embedded (the repository files carry several concatenated historical
versions of each module; line references in the claims identify which version
is authoritative, and that version is the one embedded here):

* src/src/lib/problemGenerator.ts, second version (the one exporting
  calculateAnswer / generateAdditionOperands / ... / generateProblem at the
  cited lines 130-495).
* src/src/hooks/useGameState.ts, first version (celebrationPhase reducer,
  cited lines 19-162) and second version (streak / highScore / showFeedback
  reducer with the high-score sync effect, cited lines 163-325).
* src/src/hooks/useLocalStorage.ts.

Modelling conventions:

* JS numbers are modelled as Rat where fractional values can arise
  (problem operands and answers) and as Int where the source only ever
  produces integers (random draws, generated operand lists, config bounds).
* Math.random-driven draws are modelled by an entropy stream of naturals;
  each getRandomInt call consumes one stream element.  The modelled
  getRandomInt has exactly the support of the JS expression
  floor(random() * (max - min + 1)) + min, including the degenerate case
  max < min, where the JS value ranges over the interval from max+1 to min.
* JS division by zero yields Infinity or NaN; no claim depends on a
  non-finite value, so those paths are modelled as Except.error.
* Thrown JS exceptions are modelled as Except.error with the thrown message.
-/

set_option maxRecDepth 10000

deriving instance DecidableEq for Except

namespace MathStreak

/-- Entropy stream feeding the Math.random based helpers. -/
abbrev Entropy := Nat → Nat

/-- Drop the first element of an entropy stream. -/
def stail (e : Entropy) : Entropy := fun n => e (n + 1)

/-- Drop the first two elements of an entropy stream. -/
def stail2 (e : Entropy) : Entropy := stail (stail e)

/-- Embedding of getRandomInt: floor(random() * (max - min + 1)) + min.
For min ≤ max this is a uniform draw from the closed interval; for
max < min the JS expression ranges over the integers from max+1 to min,
which the second branch reproduces. -/
def getRandomInt (min max : Int) (r : Nat) : Int :=
  if min ≤ max then
    min + ((r % (max - min + 1).toNat : Nat) : Int)
  else
    min - ((r % (min - max).toNat : Nat) : Int)

/-- Embedding of getRandomElement: index draw into the array; an empty
array yields undefined in JS, modelled as none. -/
def getRandomElement {α : Type} (l : List α) (r : Nat) : Option α :=
  l.get? (getRandomInt 0 (l.length - 1) r).toNat

/-- The closed operation enumeration from lib/types.ts. -/
inductive Operation
  | addition
  | subtraction
  | multiplication
  | division
deriving DecidableEq, Repr

/-- UnknownPosition from lib/types.ts: the string union of the literal
"result" and the template literals of shape operand-N. -/
inductive UnknownPosition
  | result
  | operand (idx : Nat)
deriving DecidableEq, Repr

/-- A generated problem (lib/types.ts).  Operands and answer are rational
because the source can produce fractional values through JS division. -/
structure Problem where
  operation : Operation
  operands : List ℚ
  unknownPosition : UnknownPosition
  answer : ℚ
  displayString : String
deriving DecidableEq, Repr

/-- The constraints object; minOperand and maxOperand are optional in the
TS interface and the generator functions supply per-function defaults. -/
structure Constraints where
  maxResult : Int
  minOperand : Option Int := none
  maxOperand : Option Int := none
  allowZero : Option Bool := none
deriving DecidableEq, Repr

/-- DifficultyConfig from lib/types.ts. -/
structure DifficultyConfig where
  name : String
  operations : List Operation
  operandCount : Nat
  unknownPositions : List UnknownPosition
  constraints : Constraints
deriving DecidableEq, Repr

/-- getOperationSymbol from problemGenerator.ts. -/
def getOperationSymbol (operation : Operation) : String :=
  match operation with
  | .addition => "+"
  | .subtraction => "-"
  | .multiplication => "×"
  | .division => "÷"

/-- Rendering of a JS number into a display string.  All display strings
appearing in the theorems below hold integral values, which JS renders as
plain decimal integers; the non-integral branch is a placeholder rendering
(JS would print a decimal expansion) and is never relied upon. -/
def numToString (q : ℚ) : String :=
  if q.den = 1 then toString q.num
  else toString q.num ++ "/" ++ toString q.den

/-- View a list of integer draws as a list of JS numbers. -/
def toRatList (l : List Int) : List ℚ :=
  l.map (fun n : Int => (n : ℚ))

/-- JS division a / b, which is non-finite (Infinity or NaN) when b = 0;
the non-finite case is modelled as an error since no claim depends on it. -/
def jsDiv (a b : ℚ) : Except String ℚ :=
  if b = 0 then .error "non-finite division" else .ok (a / b)

/-- calculateAnswer from problemGenerator.ts (second version).  Addition
and multiplication reduce with a seed (0 resp. 1); subtraction and division
reduce without a seed, which throws in JS on an empty array. -/
def calculateAnswer (operation : Operation) (operands : List ℚ) :
    Except String ℚ :=
  match operation with
  | .addition => .ok (operands.foldl (· + ·) 0)
  | .subtraction =>
    match operands with
    | [] => .error "reduce of empty array with no initial value"
    | h :: t => .ok (t.foldl (· - ·) h)
  | .multiplication => .ok (operands.foldl (· * ·) 1)
  | .division =>
    match operands with
    | [] => .error "reduce of empty array with no initial value"
    | h :: t => t.foldlM (fun acc n => jsDiv acc n) h

/-- The two-operand rejection-sampling loop of generateAdditionOperands,
together with the final value of its attempts counter.  The source runs a
do-while: draw both operands, increment attempts, fall back when attempts
exceeds 100, otherwise repeat while the sum exceeds maxResult.  fuel is the
number of non-fallback iterations still allowed; the loop starts with fuel
100, so the fallback fires on the 101st iteration exactly as in the source
(whose 101st draws are discarded and replaced by the fallback draws). -/
def addTwoLoop (minO maxO maxR : Int) : Nat → Entropy → (Int × Int) × Nat
  | 0, e =>
    -- 101st iteration: the two regular draws (stream positions 0 and 1)
    -- are made and discarded, then the fallback draws clamp the ranges.
    let operand1 := getRandomInt minO (min maxO maxR) (e 2)
    let operand2 := getRandomInt minO (min maxO (maxR - operand1)) (e 3)
    ((operand1, operand2), 101)
  | fuel + 1, e =>
    let operand1 := getRandomInt minO maxO (e 0)
    let operand2 := getRandomInt minO maxO (e 1)
    if operand1 + operand2 ≤ maxR then ((operand1, operand2), 100 - fuel)
    else addTwoLoop minO maxO maxR fuel (stail2 e)

/-- One entropy-driven shuffle step: JS sorts the 3+-operand list with the
comparator () => Math.random() - 0.5, whose outcome is an
implementation-defined permutation; it is modelled as an entropy-selected
permutation (pick an element, recurse on the rest). -/
def shuffleModel : Nat → Entropy → List Int → List Int
  | 0, _, l => l
  | fuel + 1, e, l =>
    match l with
    | [] => []
    | _ :: _ =>
      let i := e 0 % l.length
      (l.get? i).elim l
        (fun x => x :: shuffleModel fuel (stail e) (l.eraseIdx i))

/-- The sequential 3+-operand path of generateAdditionOperands: each
non-last operand draws a value leaving minOperand headroom per remaining
slot, and the last operand absorbs the clamped remainder. -/
def addSeq (minO maxO : Int) : Nat → Int → Entropy → List Int
  | 0, _, _ => []
  | count + 1, remainingSum, e =>
    if count = 0 then
      [max minO (min remainingSum maxO)]
    else
      let maxPossible := min maxO (remainingSum - count * minO)
      let value := getRandomInt minO (max minO maxPossible) (e 0)
      value :: addSeq minO maxO count (remainingSum - value) (stail e)

/-- generateAdditionOperands from problemGenerator.ts (second version). -/
def generateAdditionOperands (config : DifficultyConfig) (e : Entropy) :
    List Int :=
  let maxR := config.constraints.maxResult
  let minO := config.constraints.minOperand.getD 0
  let maxO := config.constraints.maxOperand.getD 10
  if config.operandCount = 2 then
    let r := (addTwoLoop minO maxO maxR 100 e).1
    [r.1, r.2]
  else
    let operands := addSeq minO maxO config.operandCount maxR e
    shuffleModel operands.length (fun n => e (n + config.operandCount))
      operands

/-- The attempts counter of the two-operand loop, for the termination
claim. -/
def generateAdditionAttempts (config : DifficultyConfig) (e : Entropy) :
    Nat :=
  let maxR := config.constraints.maxResult
  let minO := config.constraints.minOperand.getD 0
  let maxO := config.constraints.maxOperand.getD 10
  (addTwoLoop minO maxO maxR 100 e).2

/-- generateSubtractionOperands from problemGenerator.ts (second
version): draw the result, draw the subtrahend, derive the minuend, clamp
it to maxOperand, and shrink the subtrahend when the clamp would make the
difference negative. -/
def generateSubtractionOperands (config : DifficultyConfig) (e : Entropy) :
    Except String (List Int) :=
  let maxR := config.constraints.maxResult
  let minO := config.constraints.minOperand.getD 0
  let maxO := config.constraints.maxOperand.getD 10
  if config.operandCount ≠ 2 then
    .error "Subtraction currently only supports 2 operands"
  else
    let result := getRandomInt minO maxR (e 0)
    let subtrahend := getRandomInt minO maxO (e 1)
    let minuend := result + subtrahend
    let clampedMinuend := min minuend maxO
    if clampedMinuend < subtrahend then
      .ok [clampedMinuend, min subtrahend clampedMinuend]
    else
      .ok [clampedMinuend, subtrahend]

/-- generateMultiplicationOperands from problemGenerator.ts (second
version).  Math.floor of the JS float quotient is integer floor
division. -/
def generateMultiplicationOperands (config : DifficultyConfig)
    (e : Entropy) : Except String (List Int) :=
  let maxR := config.constraints.maxResult
  let minO := config.constraints.minOperand.getD 0
  let maxO := config.constraints.maxOperand.getD 10
  if config.operandCount ≠ 2 then
    .error "Multiplication currently only supports 2 operands"
  else
    let firstOperand := getRandomInt minO maxO (e 0)
    let maxSecondOperand :=
      if firstOperand = 0 then maxO else min maxO (Int.fdiv maxR firstOperand)
    let secondOperand := getRandomInt minO maxSecondOperand (e 1)
    .ok [firstOperand, secondOperand]

/-- generateDivisionOperands from problemGenerator.ts (second version);
note its minOperand default is 1, unlike the other generators. -/
def generateDivisionOperands (config : DifficultyConfig) (e : Entropy) :
    Except String (List Int) :=
  let maxR := config.constraints.maxResult
  let minO := config.constraints.minOperand.getD 1
  let maxO := config.constraints.maxOperand.getD 10
  if config.operandCount ≠ 2 then
    .error "Division currently only supports 2 operands"
  else
    let quotient := getRandomInt (max minO 0) maxR (e 0)
    let divisor := getRandomInt (max minO 1) maxO (e 1)
    let dividend := quotient * divisor
    .ok [dividend, divisor]

/-- generateOperands dispatch from problemGenerator.ts (second version). -/
def generateOperands (config : DifficultyConfig) (operation : Operation)
    (e : Entropy) : Except String (List Int) :=
  match operation with
  | .addition => .ok (generateAdditionOperands config e)
  | .subtraction => generateSubtractionOperands config e
  | .multiplication => generateMultiplicationOperands config e
  | .division => generateDivisionOperands config e

/-- calculateUnknownOperand from problemGenerator.ts (second version),
for unknownIndex 0 or 1.  The multiplication branch and the second division
branch perform JS division, which is non-finite when the denominator is
zero. -/
def calculateUnknownOperand (operation : Operation)
    (generatedOperands : List ℚ) (unknownIndex : Nat) (result : ℚ) :
    Except String ℚ :=
  let knownOperand := generatedOperands.getD (1 - unknownIndex) 0
  match operation with
  | .addition => .ok (result - knownOperand)
  | .subtraction =>
    if unknownIndex = 0 then .ok (result + knownOperand)
    else .ok (generatedOperands.getD 0 0 - result)
  | .multiplication => jsDiv result knownOperand
  | .division =>
    if unknownIndex = 0 then .ok (result * knownOperand)
    else jsDiv (generatedOperands.getD 0 0) result

/-- generateDisplayString from problemGenerator.ts (second version).  For
the result-unknown case the operands are joined by the symbol followed by
an equals-question-mark suffix; for an operand-unknown case the unknown
slot shows a question mark and the value after the equals sign is the
fourth argument (which generateProblem passes the answer for).  The
inductive UnknownPosition makes the regex always match, so the final throw
of the source is unreachable here. -/
def generateDisplayString (operation : Operation) (operands : List ℚ)
    (unknownPosition : UnknownPosition) (answer : ℚ) : String :=
  let symbol := getOperationSymbol operation
  match unknownPosition with
  | .result =>
    String.intercalate (" " ++ symbol ++ " ") (operands.map numToString)
      ++ " = ?"
  | .operand unknownIndex =>
    let displayParts :=
      (List.range operands.length).map (fun i =>
        if i = unknownIndex then "?" else numToString (operands.getD i 0))
    String.intercalate (" " ++ symbol ++ " ")
      displayParts ++ " = " ++ numToString answer

/-- generateProblem from problemGenerator.ts (second version, the main
export at the cited lines 443-495).  An empty operations or
unknownPositions list gives undefined in JS and crashes downstream,
modelled as an error; an unknown-operand index that is not 0 or 1 makes
the source read a negative or missing array index (undefined, so the
problem is NaN-polluted in JS) and is likewise modelled as an error.  No
theorem below depends on those branches. -/
def generateProblem (config : DifficultyConfig) (e : Entropy) :
    Except String Problem :=
  match getRandomElement config.operations (e 0) with
  | none => .error "undefined operation"
  | some operation =>
    match getRandomElement config.unknownPositions (e 1) with
    | none => .error "undefined unknown position"
    | some unknownPosition =>
      match generateOperands config operation (stail2 e) with
      | .error msg => .error msg
      | .ok generatedOperands =>
        match unknownPosition with
        | .result =>
          match calculateAnswer operation
              (toRatList generatedOperands) with
          | .error msg => .error msg
          | .ok answer =>
            .ok ⟨operation, toRatList generatedOperands,
              .result, answer,
              generateDisplayString operation
                (toRatList generatedOperands) .result answer⟩
        | .operand unknownIndex =>
          if unknownIndex < generatedOperands.length ∧ unknownIndex < 2 then
            match calculateUnknownOperand operation
                (toRatList generatedOperands) unknownIndex
                ((generatedOperands.getD unknownIndex 0 : Int) : ℚ) with
            | .error msg => .error msg
            | .ok answer =>
              .ok ⟨operation,
                (toRatList generatedOperands).set unknownIndex
                  answer,
                .operand unknownIndex, answer,
                generateDisplayString operation
                  ((toRatList generatedOperands).set
                    unknownIndex answer)
                  (.operand unknownIndex) answer⟩
          else .error "unknown operand index out of range"

/-- The regex test of a single numeric digit used by UPDATE_ANSWER.
Character-list based so that it evaluates by kernel reduction. -/
def isSingleDigit (s : String) : Bool :=
  s.toList.length = 1 && s.toList.all Char.isDigit

/-- JS parseInt(s, 10) on the strings the reducers can hold: the longest
leading run of ASCII digits is parsed in base 10, and none models NaN (no
leading digit).  Reducer-reachable answers consist only of digits, so the
sign and whitespace handling of full parseInt never comes into play. -/
def jsParseIntDec (s : String) : Option Int :=
  let ds := s.toList.takeWhile Char.isDigit
  if ds.isEmpty then none
  else some (ds.foldl (fun n c => n * 10 + ((c.toNat : Int) - 48)) 0)

/-- MAX_ANSWER_LENGTH from lib/constants.ts. -/
def MAX_ANSWER_LENGTH : Nat := 3

/-- JS str.slice(0, -1): drop the final character (empty stays empty). -/
def jsSliceDropLast (s : String) : String := String.mk s.toList.dropLast

namespace GS1

/-!
First version of useGameState.ts (the celebrationPhase reducer at the
cited lines 19-162). -/

/-- CelebrationPhase from lib/types.ts: null, revealing or transitioning;
null is represented by none in the state. -/
inductive CelebrationPhase
  | revealing
  | transitioning
deriving DecidableEq, Repr

/-- GameState of the first useGameState.ts version. -/
structure GameState where
  currentProblem : Problem
  currentAnswer : String
  isAnswerCorrect : Option Bool
  celebrationPhase : Option CelebrationPhase
deriving DecidableEq, Repr

/-- The GameAction union of the first useGameState.ts version. -/
inductive GameAction
  | updateAnswer (digit : String)
  | deleteDigit
  | submitAnswer
  | nextProblem (problem : Problem)
  | startCelebration
  | transitionToNext
  | completeTransition
deriving DecidableEq, Repr

/-- Whether the submitted answer parses to the answer of the current problem:
parseInt(currentAnswer, 10) === currentProblem.answer, with NaN (none)
never equal. -/
def answerIsCorrect (state : GameState) : Bool :=
  match jsParseIntDec state.currentAnswer with
  | none => false
  | some v => (v : ℚ) = state.currentProblem.answer

/-- gameReducer of the first useGameState.ts version. -/
def gameReducer (state : GameState) (action : GameAction) : GameState :=
  match action with
  | .updateAnswer digit =>
    if MAX_ANSWER_LENGTH ≤ state.currentAnswer.length then state
    else if ¬ isSingleDigit digit then state
    else { state with currentAnswer := state.currentAnswer ++ digit }
  | .deleteDigit =>
    { state with currentAnswer := jsSliceDropLast state.currentAnswer }
  | .submitAnswer =>
    if state.currentAnswer = "" then state
    else if state.celebrationPhase ≠ none then state
    else
      { state with
        isAnswerCorrect := some (answerIsCorrect state)
        celebrationPhase := some .revealing }
  | .startCelebration =>
    { state with celebrationPhase := some .revealing }
  | .transitionToNext =>
    { state with celebrationPhase := some .transitioning }
  | .completeTransition =>
    { state with celebrationPhase := none }
  | .nextProblem problem =>
    { state with
      currentProblem := problem
      currentAnswer := ""
      isAnswerCorrect := none
      celebrationPhase := none }

/-- Dispatch a list of actions in order from a state. -/
def run (state : GameState) (actions : List GameAction) : GameState :=
  actions.foldl gameReducer state

/-- The four callbacks the first useGameState.ts version exposes. -/
inductive HookAct
  | updateAnswer (digit : String)
  | deleteLastDigit
  | submitAnswer
  | nextProblem
deriving DecidableEq, Repr

/-- The hook callbacks as dispatches into the reducer.  Only nextProblem
touches the random generator: it builds a fresh problem outside the
reducer (passing the entropy to generateProblem, whose failure would be a
thrown JS exception) and hands the problem to the reducer as the
NEXT_PROBLEM payload. -/
def hookDispatch (config : DifficultyConfig) (e : Entropy)
    (state : GameState) : HookAct → Except String GameState
  | .updateAnswer digit => .ok (gameReducer state (.updateAnswer digit))
  | .deleteLastDigit => .ok (gameReducer state .deleteDigit)
  | .submitAnswer => .ok (gameReducer state .submitAnswer)
  | .nextProblem =>
    (generateProblem config e).map
      (fun p => gameReducer state (.nextProblem p))

end GS1

namespace GS2

/-!
Second version of useGameState.ts (streak, highScore, showFeedback; the
reducer at the cited lines 180-250 plus the high-score sync effect at the
cited lines 277-283). -/

/-- GameState of the second useGameState.ts version. -/
structure GameState where
  currentProblem : Problem
  currentAnswer : String
  streak : Int
  highScore : Int
  isAnswerCorrect : Option Bool
  showFeedback : Bool
deriving DecidableEq, Repr

/-- The GameAction union of the second useGameState.ts version. -/
inductive GameAction
  | updateAnswer (digit : String)
  | deleteDigit
  | submitAnswer
  | nextProblem (problem : Problem)
  | setHighScore (score : Int)
deriving DecidableEq, Repr

/-- parseInt(currentAnswer, 10) === currentProblem.answer. -/
def answerIsCorrect (state : GameState) : Bool :=
  match jsParseIntDec state.currentAnswer with
  | none => false
  | some v => (v : ℚ) = state.currentProblem.answer

/-- gameReducer of the second useGameState.ts version.  SUBMIT_ANSWER
increments the streak on a correct answer and resets it to zero on an
incorrect one; NEXT_PROBLEM leaves the streak alone. -/
def gameReducer (state : GameState) (action : GameAction) : GameState :=
  match action with
  | .updateAnswer digit =>
    if MAX_ANSWER_LENGTH ≤ state.currentAnswer.length then state
    else if ¬ isSingleDigit digit then state
    else { state with currentAnswer := state.currentAnswer ++ digit }
  | .deleteDigit =>
    { state with currentAnswer := jsSliceDropLast state.currentAnswer }
  | .submitAnswer =>
    if state.currentAnswer = "" then state
    else if state.showFeedback then state
    else
      let isCorrect := answerIsCorrect state
      { state with
        isAnswerCorrect := some isCorrect
        showFeedback := true
        streak := if isCorrect then state.streak + 1 else 0 }
  | .nextProblem problem =>
    { state with
      currentProblem := problem
      currentAnswer := ""
      isAnswerCorrect := none
      showFeedback := false }
  | .setHighScore score =>
    { state with highScore := score }

/-- The high-score sync effect: whenever a render observes
streak > highScore it persists the streak and dispatches SET_HIGH_SCORE
with it.  The effect runs after every committed dispatch (and on mount),
so it is composed after each reducer step below. -/
def syncHighScore (state : GameState) : GameState :=
  if state.highScore < state.streak
  then gameReducer state (.setHighScore state.streak)
  else state

/-- The hook-level actions a component can invoke; advance carries the
freshly generated problem that nextProblem builds before dispatching. -/
inductive HookAct
  | updateAnswer (digit : String)
  | deleteLastDigit
  | submitAnswer
  | advance (problem : Problem)
deriving DecidableEq, Repr

/-- Map a hook action to its reducer action. -/
def interp : HookAct → GameAction
  | .updateAnswer digit => .updateAnswer digit
  | .deleteLastDigit => .deleteDigit
  | .submitAnswer => .submitAnswer
  | .advance problem => .nextProblem problem

/-- One committed dispatch followed by the sync effect. -/
def step (state : GameState) (act : HookAct) : GameState :=
  syncHighScore (gameReducer state (interp act))

/-- Initial state of the hook: a fresh problem, empty answer, zero streak
and the persisted high score. -/
def initState (problem : Problem) (highScore : Int) : GameState :=
  ⟨problem, "", 0, highScore, none, false⟩

/-- A session: the mount-time sync followed by the dispatched actions,
each with its trailing sync effect. -/
def run (problem : Problem) (highScore : Int) (acts : List HookAct) :
    GameState :=
  acts.foldl step (syncHighScore (initState problem highScore))

end GS2

namespace LS

/-!
useLocalStorage.ts: the persistence adapter. -/

/-- The browser storage environment: whether window.localStorage exists,
the stored items, and whether getItem / setItem throw (SecurityError,
QuotaExceededError, ...). -/
structure StorageEnv where
  hasWindow : Bool
  items : List (String × String)
  getFails : Bool
  setFails : Bool
deriving DecidableEq, Repr

/-- window.localStorage.getItem, which can throw. -/
def getItem (env : StorageEnv) (key : String) :
    Except Unit (Option String) :=
  if env.getFails then .error ()
  else .ok ((env.items.find? (fun kv => kv.1 = key)).map (fun kv => kv.2))

/-- window.localStorage.setItem, which can throw; a successful write
shadows any previous binding of the key. -/
def setItem (env : StorageEnv) (key value : String) :
    Except Unit StorageEnv :=
  if env.setFails then .error ()
  else .ok { env with items := (key, value) :: env.items }

/-- The useState initializer of useLocalStorage: absence of window, a
thrown getItem, an absent key, an empty string (falsy in the JS
conditional) and a JSON.parse failure (modelled by parse returning none)
all fall back to the initial value; the catch swallows every error. -/
def useLocalStorageInit {T : Type} (parse : String → Option T)
    (env : StorageEnv) (key : String) (initialValue : T) : T :=
  if env.hasWindow = false then initialValue
  else
    match getItem env key with
    | .error _ => initialValue
    | .ok none => initialValue
    | .ok (some item) =>
      if item = "" then initialValue
      else (parse item).getD initialValue

/-- The setValue closure of useLocalStorage: the React state is updated
first, then the write is attempted; a thrown setItem is caught, leaving
the already-updated in-memory value in place and the storage untouched.
The returned pair is (in-memory value, storage environment). -/
def setValue {T : Type} (serialize : T → String) (env : StorageEnv)
    (key : String) (value : T) : T × StorageEnv :=
  if env.hasWindow then
    match setItem env key (serialize value) with
    | .ok env2 => (value, env2)
    | .error _ => (value, env)
  else (value, env)

end LS

/-! ### Concrete instances used by the counterexample and witness theorems -/

/-- Config of the claimed unknown-operand scenario: multiplication,
unknownPositions operand-0, maxResult 20. -/
def cfgC1demo : DifficultyConfig :=
  ⟨"c1", [.multiplication], 2, [.operand 0], ⟨20, some 0, some 10, none⟩⟩

/-- Entropy driving the draws 6 and 3 for the two factors. -/
def entC1demo : Entropy := fun n => [0, 0, 6, 3].getD n 0

/-- Addition config with minOperand 3, where the fallback misbehaves. -/
def cfgC2cex : DifficultyConfig :=
  ⟨"c2", [.addition], 2, [.result], ⟨10, some 3, some 10, none⟩⟩

/-- Constant entropy: every draw of the loop yields 10 + 10 > 10, so the
loop runs its 101 iterations into the fallback. -/
def entC2cex : Entropy := fun _ => 7

/-- The problem cfgC2cex and entC2cex generate. -/
def pC2cex : Problem := ⟨.addition, [10, 2], .result, 12, "10 + 2 = ?"⟩

/-- Default kindergarten addition config (for the C2 witness). -/
def cfgC2wit : DifficultyConfig :=
  ⟨"Kindergarten Addition", [.addition], 2, [.result],
    ⟨10, some 0, some 10, none⟩⟩

/-- Entropy drawing the accepted pair 2 and 5. -/
def entC2wit : Entropy := fun n => [0, 0, 2, 5].getD n 0

/-- A problem whose answer is 1, used to drive concrete reducer runs. -/
def pAns1C4 : Problem := ⟨.addition, [0, 1], .result, 1, "0 + 1 = ?"⟩

/-- Action prefix reaching streak 2 with the wrong answer 9 typed in. -/
def actsC4pre : List GS2.HookAct :=
  [.updateAnswer "1", .submitAnswer, .advance pAns1C4,
   .updateAnswer "1", .submitAnswer, .advance pAns1C4,
   .updateAnswer "9"]

/-- The same run followed by the submit of the wrong answer. -/
def actsC4post : List GS2.HookAct := actsC4pre ++ [.submitAnswer]

/-- A concrete state for the C4 witness: streak 5, wrong answer typed. -/
def sC4wit : GS2.GameState := ⟨pAns1C4, "9", 5, 5, none, false⟩

/-- The default config the hook passes to the generator on advance. -/
def cfgC5demo : DifficultyConfig :=
  ⟨"Kindergarten Addition", [.addition], 2, [.result],
    ⟨10, some 0, some 10, none⟩⟩

/-- Entropy drawing the pair (3, 4). -/
def entC5a : Entropy := fun n => [0, 0, 3, 4].getD n 0

/-- Entropy drawing the pair (4, 3). -/
def entC5b : Entropy := fun n => [0, 0, 4, 3].getD n 0

/-- Division config with operand-1 unknown and minOperand 0. -/
def cfgC6cex : DifficultyConfig :=
  ⟨"c6", [.division], 2, [.operand 1], ⟨10, some 0, some 10, none⟩⟩

/-- Entropy drawing quotient 0 and divisor 2. -/
def entC6cex : Entropy := fun n => [0, 0, 0, 1].getD n 0

/-- The problem cfgC6cex and entC6cex generate: its divisor operand is
zero. -/
def pC6cex : Problem := ⟨.division, [0, 0], .operand 1, 0, "0 ÷ ? = 0"⟩

/-- Division config with minOperand 1 (for the C6 witness). -/
def cfgC6wit : DifficultyConfig :=
  ⟨"c6w", [.division], 2, [.operand 1], ⟨10, some 1, some 10, none⟩⟩

/-- Entropy drawing quotient 3 and divisor 2. -/
def entC6wit : Entropy := fun n => [0, 0, 2, 1].getD n 0

/-- A problem whose answer is 1, used by the C7 reducer runs. -/
def pAns1C7 : Problem := ⟨.addition, [0, 1], .result, 1, "0 + 1 = ?"⟩

/-- Initial state of the first-version hook with that problem. -/
def sC7init : GS1.GameState := ⟨pAns1C7, "", none, none⟩

/-- Addition config with minOperand 5, where the fallback leaves the sum
above maxResult. -/
def cfgC8cex : DifficultyConfig :=
  ⟨"c8", [.addition], 2, [.result], ⟨10, some 5, some 10, none⟩⟩

/-- Constant entropy: every loop draw yields 6 + 6 > 10, forcing the
fallback. -/
def entC8cex : Entropy := fun _ => 7

/-- Default-shaped addition config (for the C8 witness). -/
def cfgC8wit : DifficultyConfig :=
  ⟨"Kindergarten Addition", [.addition], 2, [.result],
    ⟨10, some 0, some 10, none⟩⟩

/-- Entropy for the C8 witness run. -/
def entC8wit : Entropy := fun n => [0, 0, 4, 4].getD n 0

/-!
## Theorems
-/

/-- Lower bound of a draw over a non-degenerate range. -/
theorem getRandomInt_ge_of_le {lo hi : Int} (r : Nat) (h : lo ≤ hi) :
    lo ≤ getRandomInt lo hi r := by
  unfold getRandomInt
  rw [if_pos h]
  omega

/-- Upper bound of a draw over a non-degenerate range. -/
theorem getRandomInt_le_of_le {lo hi : Int} (r : Nat) (h : lo ≤ hi) :
    getRandomInt lo hi r ≤ hi := by
  unfold getRandomInt
  rw [if_pos h]
  have h2 : r % (hi - lo + 1).toNat < (hi - lo + 1).toNat :=
    Nat.mod_lt _ (by omega)
  omega

/-- Lower bound of a draw over a degenerate range (max below min), whose
JS support is the interval from max+1 to min. -/
theorem getRandomInt_ge_of_gt {lo hi : Int} (r : Nat) (h : hi < lo) :
    hi + 1 ≤ getRandomInt lo hi r := by
  unfold getRandomInt
  rw [if_neg (by omega)]
  have h2 : r % (lo - hi).toNat < (lo - hi).toNat := Nat.mod_lt _ (by omega)
  omega

/-- Upper bound of a draw over a degenerate range. -/
theorem getRandomInt_le_of_gt {lo hi : Int} (r : Nat) (h : hi < lo) :
    getRandomInt lo hi r ≤ lo := by
  unfold getRandomInt
  rw [if_neg (by omega)]
  omega

/-- Soundness of the two-operand addition loop under the conditions that
make its fallback well-behaved: non-negative minOperand that leaves room
below maxResult even for the largest clamped first draw. -/
theorem addTwoLoop_ok {minO maxO maxR : Int} (h1 : minO ≤ maxO)
    (_h2 : 0 ≤ minO) (h3 : minO ≤ maxR)
    (h4 : minO + min maxO maxR ≤ maxR) :
    ∀ (fuel : Nat) (e : Entropy),
      minO ≤ ((addTwoLoop minO maxO maxR fuel e).1).1 ∧
      ((addTwoLoop minO maxO maxR fuel e).1).1 ≤ maxO ∧
      minO ≤ ((addTwoLoop minO maxO maxR fuel e).1).2 ∧
      ((addTwoLoop minO maxO maxR fuel e).1).2 ≤ maxO ∧
      ((addTwoLoop minO maxO maxR fuel e).1).1 +
        ((addTwoLoop minO maxO maxR fuel e).1).2 ≤ maxR := by
  intro fuel
  induction fuel with
  | zero =>
    intro e
    simp only [addTwoLoop]
    have ha1 : minO ≤ getRandomInt minO (min maxO maxR) (e 2) :=
      getRandomInt_ge_of_le _ (by omega)
    have ha2 : getRandomInt minO (min maxO maxR) (e 2) ≤ min maxO maxR :=
      getRandomInt_le_of_le _ (by omega)
    have hb1 : minO ≤ getRandomInt minO
        (min maxO (maxR - getRandomInt minO (min maxO maxR) (e 2))) (e 3) :=
      getRandomInt_ge_of_le _ (by omega)
    have hb2 : getRandomInt minO
        (min maxO (maxR - getRandomInt minO (min maxO maxR) (e 2))) (e 3) ≤
        min maxO (maxR - getRandomInt minO (min maxO maxR) (e 2)) :=
      getRandomInt_le_of_le _ (by omega)
    omega
  | succ fuel ih =>
    intro e
    simp only [addTwoLoop]
    split
    · have hx1 : minO ≤ getRandomInt minO maxO (e 0) :=
        getRandomInt_ge_of_le _ h1
      have hx2 : getRandomInt minO maxO (e 0) ≤ maxO :=
        getRandomInt_le_of_le _ h1
      have hy1 : minO ≤ getRandomInt minO maxO (e 1) :=
        getRandomInt_ge_of_le _ h1
      have hy2 : getRandomInt minO maxO (e 1) ≤ maxO :=
        getRandomInt_le_of_le _ h1
      simp only []
      omega
    · exact ih (stail2 e)

/-- The attempts counter of the two-operand loop never exceeds 101: at
most 100 regular attempts, plus the fallback iteration. -/
theorem addTwoLoop_attempts_le (minO maxO maxR : Int) :
    ∀ (fuel : Nat) (e : Entropy), fuel ≤ 100 →
      (addTwoLoop minO maxO maxR fuel e).2 ≤ 101 := by
  intro fuel
  induction fuel with
  | zero => intro e _; simp [addTwoLoop]
  | succ fuel ih =>
    intro e hf
    simp only [addTwoLoop]
    split
    · omega
    · exact ih (stail2 e) (by omega)

/-- Inversion of a successful generateProblem run: the chosen operation
and unknown position, the generated operand list, and how the problem
fields are assembled from them. -/
theorem generateProblem_ok_inv {cfg : DifficultyConfig} {e : Entropy}
    {p : Problem} (hok : generateProblem cfg e = .ok p) :
    ∃ op upos gops,
      getRandomElement cfg.operations (e 0) = some op ∧
      getRandomElement cfg.unknownPositions (e 1) = some upos ∧
      generateOperands cfg op (stail2 e) = .ok gops ∧
      p.operation = op ∧ p.unknownPosition = upos ∧
      ((upos = .result ∧
          p.operands = toRatList gops ∧
          calculateAnswer op p.operands = .ok p.answer) ∨
        (∃ idx, upos = .operand idx ∧ idx < gops.length ∧ idx < 2 ∧
          calculateUnknownOperand op (toRatList gops) idx
            ((gops.getD idx 0 : Int) : ℚ) = .ok p.answer ∧
          p.operands =
            (toRatList gops).set idx p.answer)) := by
  unfold generateProblem at hok
  split at hok
  · exact Except.noConfusion hok
  next op hop =>
    split at hok
    · exact Except.noConfusion hok
    next upos hupos =>
      split at hok
      · exact Except.noConfusion hok
      next gops hgops =>
        refine ⟨op, upos, gops, hop, hupos, hgops, ?_⟩
        split at hok
        · split at hok
          · exact Except.noConfusion hok
          next answer hans =>
            injection hok with h
            subst h
            exact ⟨rfl, rfl, Or.inl ⟨rfl, rfl, hans⟩⟩
        next idx =>
          split at hok
          next hidx =>
            split at hok
            · exact Except.noConfusion hok
            next answer hans =>
              injection hok with h
              subst h
              exact ⟨rfl, rfl, Or.inr ⟨idx, rfl, hidx.1, hidx.2, hans, rfl⟩⟩
          next hidx => exact Except.noConfusion hok

/-- Claim C2, counterexample: under the config with minOperand 3,
maxOperand 10, maxResult 10 — which admits valid pairs, for example
(3, 7) — an entropy stream that defeats the rejection loop makes the
fallback return the operands (10, 2), whose second operand lies below
minOperand and whose sum 12 exceeds maxResult; so the claim as stated
(constraint soundness for any config admitting a valid pair) is false. -/
theorem C2_constraint_soundness_counterexample :
    generateProblem cfgC2cex entC2cex = .ok pC2cex ∧
    (∃ a b : Int, 3 ≤ a ∧ a ≤ 10 ∧ 3 ≤ b ∧ b ≤ 10 ∧ a + b ≤ 10) ∧
    ¬ (∀ x ∈ pC2cex.operands, (3 : ℚ) ≤ x ∧ x ≤ (10 : ℚ)) ∧
    ¬ (pC2cex.operands.sum ≤ (10 : ℚ)) := by
  refine ⟨by with_unfolding_all decide, ⟨3, 7, by decide⟩,
    by with_unfolding_all decide, by with_unfolding_all decide⟩

/-- Claim C2 (amended): for every generated problem with operation
addition and unknownPosition result, under a two-operand config admitting
at least one valid pair, with 0 ≤ minOperand and with
minOperand + min(maxOperand, maxResult) ≤ maxResult (so the clamped
first draw of the fallback always leaves room for the second), the operand sum is
at most maxResult and every operand lies within [minOperand,
maxOperand]. -/
theorem C2_addition_constraint_soundness
    (cfg : DifficultyConfig) (e : Entropy) (p : Problem)
    (hok : generateProblem cfg e = .ok p)
    (hop : p.operation = .addition)
    (hupos : p.unknownPosition = .result)
    (hcount : cfg.operandCount = 2)
    (hpair : ∃ a b : Int,
      cfg.constraints.minOperand.getD 0 ≤ a ∧
      a ≤ cfg.constraints.maxOperand.getD 10 ∧
      cfg.constraints.minOperand.getD 0 ≤ b ∧
      b ≤ cfg.constraints.maxOperand.getD 10 ∧
      a + b ≤ cfg.constraints.maxResult)
    (hmin : 0 ≤ cfg.constraints.minOperand.getD 0)
    (hroom : cfg.constraints.minOperand.getD 0 +
      min (cfg.constraints.maxOperand.getD 10) cfg.constraints.maxResult ≤
      cfg.constraints.maxResult) :
    (∀ x ∈ p.operands,
      ((cfg.constraints.minOperand.getD 0 : Int) : ℚ) ≤ x ∧
      x ≤ ((cfg.constraints.maxOperand.getD 10 : Int) : ℚ)) ∧
    p.operands.sum ≤ ((cfg.constraints.maxResult : Int) : ℚ) := by
  obtain ⟨op, upos, gops, hge, hgu, hgo, hpo, hpu, hdisj⟩ :=
    generateProblem_ok_inv hok
  obtain rfl : op = .addition := by rw [← hpo, hop]
  obtain rfl : upos = .result := by rw [← hpu, hupos]
  rcases hdisj with ⟨-, hops, -⟩ | ⟨idx, habs, -, -, -, -⟩
  · simp only [generateOperands] at hgo
    injection hgo with hgadd
    have hform : generateAdditionOperands cfg (stail2 e) =
        [((addTwoLoop (cfg.constraints.minOperand.getD 0)
            (cfg.constraints.maxOperand.getD 10) cfg.constraints.maxResult
            100 (stail2 e)).1).1,
          ((addTwoLoop (cfg.constraints.minOperand.getD 0)
            (cfg.constraints.maxOperand.getD 10) cfg.constraints.maxResult
            100 (stail2 e)).1).2] := by
      simp [generateAdditionOperands, hcount]
    obtain ⟨a0, b0, ha0l, ha0r, hb0l, hb0r, hab0⟩ := hpair
    have hbounds := @addTwoLoop_ok (cfg.constraints.minOperand.getD 0)
      (cfg.constraints.maxOperand.getD 10) cfg.constraints.maxResult
      (by omega) hmin (by omega) hroom 100 (stail2 e)
    rw [← hgadd, hform] at hops
    constructor
    · intro x hx
      rw [hops] at hx
      simp only [toRatList, List.map_cons, List.map_nil, List.mem_cons,
        List.not_mem_nil, or_false] at hx
      rcases hx with rfl | rfl
      · exact ⟨by exact_mod_cast hbounds.1, by exact_mod_cast hbounds.2.1⟩
      · exact ⟨by exact_mod_cast hbounds.2.2.1,
          by exact_mod_cast hbounds.2.2.2.1⟩
    · rw [hops]
      simp only [toRatList, List.map_cons, List.map_nil, List.sum_cons,
        List.sum_nil, add_zero]
      exact_mod_cast hbounds.2.2.2.2
  · exact UnknownPosition.noConfusion habs

/-- Claim C2, witness: the default kindergarten config (minOperand 0,
maxOperand 10, maxResult 10) satisfies the amended hypotheses, and the
problem generated from a concrete entropy satisfies the bounds. -/
theorem C2_addition_constraint_soundness_witness :
    (∀ x ∈ ([(2 : ℚ), 5] : List ℚ),
      ((cfgC2wit.constraints.minOperand.getD 0 : Int) : ℚ) ≤ x ∧
      x ≤ ((cfgC2wit.constraints.maxOperand.getD 10 : Int) : ℚ)) ∧
    ([(2 : ℚ), 5] : List ℚ).sum ≤
      ((cfgC2wit.constraints.maxResult : Int) : ℚ) := by
  exact C2_addition_constraint_soundness cfgC2wit entC2wit
    ⟨.addition, [2, 5], .result, 7, "2 + 5 = ?"⟩
    (by with_unfolding_all decide) rfl rfl rfl
    ⟨0, 0, by decide⟩ (by decide) (by decide)

/-- Claim C8, counterexample: with minOperand 5, maxOperand 10,
maxResult 10 and entropy that defeats the loop, the fallback returns
(6, 5) whose sum 11 exceeds maxResult, so the fallback does not clamp
values into range as the claim states. -/
theorem C8_fallback_counterexample :
    generateAdditionOperands cfgC8cex entC8cex = [6, 5] ∧
    generateAdditionAttempts cfgC8cex entC8cex = 101 ∧
    ¬ ((6 : Int) + 5 ≤ cfgC8cex.constraints.maxResult) := by
  exact ⟨by with_unfolding_all decide, by with_unfolding_all decide,
    by decide⟩

/-- Claim C8 (amended): generation terminates for every configuration —
the two-operand rejection loop performs at most 100 regular attempts and
then one fallback iteration, so its attempts counter never exceeds 101,
for every config and entropy; and when minOperand = 0 (with non-negative
maxOperand and maxResult) the fallback moreover clamps the operands into
range with sum at most maxResult. -/
theorem C8_bounded_attempts (cfg : DifficultyConfig) (e : Entropy) :
    generateAdditionAttempts cfg e ≤ 101 ∧
    (cfg.constraints.minOperand.getD 0 = 0 →
      0 ≤ cfg.constraints.maxOperand.getD 10 →
      0 ≤ cfg.constraints.maxResult →
      cfg.operandCount = 2 →
      ∀ x ∈ generateAdditionOperands cfg e,
        0 ≤ x ∧ x ≤ cfg.constraints.maxOperand.getD 10 ∧
        (generateAdditionOperands cfg e).sum ≤
          cfg.constraints.maxResult) := by
  constructor
  · exact addTwoLoop_attempts_le _ _ _ 100 e (by omega)
  · intro hmin hmaxO hmaxR hcount x hx
    have hform : generateAdditionOperands cfg e =
        [((addTwoLoop (cfg.constraints.minOperand.getD 0)
            (cfg.constraints.maxOperand.getD 10) cfg.constraints.maxResult
            100 e).1).1,
          ((addTwoLoop (cfg.constraints.minOperand.getD 0)
            (cfg.constraints.maxOperand.getD 10) cfg.constraints.maxResult
            100 e).1).2] := by
      simp [generateAdditionOperands, hcount]
    have hbounds := @addTwoLoop_ok (cfg.constraints.minOperand.getD 0)
      (cfg.constraints.maxOperand.getD 10) cfg.constraints.maxResult
      (by omega) (by omega) (by omega) (by omega) 100 e
    rw [hform] at hx
    rw [hform]
    simp only [List.mem_cons, List.not_mem_nil, or_false] at hx
    simp only [List.sum_cons, List.sum_nil, add_zero]
    rcases hx with rfl | rfl <;> omega

/-- Claim C8, witness: a concrete config and entropy where the attempts
bound and the minOperand-0 clamping conclusion are discharged. -/
theorem C8_bounded_attempts_witness :
    generateAdditionAttempts cfgC8wit entC8wit ≤ 101 ∧
    ∀ x ∈ generateAdditionOperands cfgC8wit entC8wit,
      0 ≤ x ∧ x ≤ cfgC8wit.constraints.maxOperand.getD 10 ∧
      (generateAdditionOperands cfgC8wit entC8wit).sum ≤
        cfgC8wit.constraints.maxResult := by
  have h := C8_bounded_attempts cfgC8wit entC8wit
  exact ⟨h.1, h.2 (by decide) (by decide) (by decide) (by decide)⟩

/-- Claim C1, demonstration of the code bug: under the multiplication
config with unknownPositions operand-0 and maxResult 20, the generator can
produce the problem displayed as a question mark times 3 equals 2 with
answer 2 — but multiplying the operands 2 and 3 gives 6, not the displayed
2: generateProblem writes the answer (the unknown operand itself), not the
equation result, after the equals sign, so re-evaluating the operation
over the operands does not equal the visible result. -/
theorem C1_display_result_mismatch :
    generateProblem cfgC1demo entC1demo =
      .ok ⟨.multiplication, [2, 3], .operand 0, 2, "? × 3 = 2"⟩ ∧
    calculateAnswer .multiplication [2, 3] = .ok 6 ∧
    ¬ ((6 : ℚ) = 2) := by
  refine ⟨by with_unfolding_all decide, by with_unfolding_all decide,
    by with_unfolding_all decide⟩

/-- Claim C5, demonstration of the code bug: the first-version hook passes
the previous problem as a second argument, but generateProblem takes only
the config, so anti-repeat never happens: from the default config the
generator can return the ordered pair (3, 4) — identical to a previous
(3, 4) problem — even though the config also admits the pair (4, 3) (and
many others), as the second conjunct shows with a different entropy. -/
theorem C5_previous_problem_ignored :
    generateProblem cfgC5demo entC5a =
      .ok ⟨.addition, [3, 4], .result, 7, "3 + 4 = ?"⟩ ∧
    generateProblem cfgC5demo entC5b =
      .ok ⟨.addition, [4, 3], .result, 7, "4 + 3 = ?"⟩ := by
  refine ⟨by with_unfolding_all decide, by with_unfolding_all decide⟩

/-- Claim C6, counterexample: with division, unknownPosition operand-1 and
minOperand 0, drawing quotient 0 and divisor 2 produces the problem with
operands 0 and 0 — its divisor operand is zero, refuting the claim that
every generated division problem has a non-zero divisor. -/
theorem C6_zero_divisor_counterexample :
    generateProblem cfgC6cex entC6cex = .ok pC6cex ∧
    pC6cex.operation = .division ∧
    pC6cex.operands.getD 1 0 = 0 := by
  refine ⟨by with_unfolding_all decide, rfl, by with_unfolding_all decide⟩

/-- Claim C6 (amended): every generated division problem whose unknown
position is the result or operand-0 — and also operand-1 provided
minOperand ≥ 1 and maxResult ≥ 0, which keeps the drawn quotient (which
becomes the divisor operand) positive — has two operands with a non-zero
divisor and an integer quotient, provided maxOperand ≥ 0 (so the drawn
divisor is positive); with operand-1 unknown and minOperand ≤ 0 the
divisor operand can be the drawn quotient 0. -/
theorem C6_division_safety
    (cfg : DifficultyConfig) (e : Entropy) (p : Problem)
    (hok : generateProblem cfg e = .ok p)
    (hop : p.operation = .division)
    (hmaxO : 0 ≤ cfg.constraints.maxOperand.getD 10)
    (hcases : p.unknownPosition = .result ∨
      p.unknownPosition = .operand 0 ∨
      (p.unknownPosition = .operand 1 ∧
        1 ≤ cfg.constraints.minOperand.getD 1 ∧
        0 ≤ cfg.constraints.maxResult)) :
    ∃ a b : ℚ, p.operands = [a, b] ∧ b ≠ 0 ∧
      ∃ k : Int, a = (k : ℚ) * b := by
  obtain ⟨op, upos, gops, hge, hgu, hgo, hpo, hpu, hdisj⟩ :=
    generateProblem_ok_inv hok
  obtain rfl : op = .division := by rw [← hpo, hop]
  simp only [generateOperands, generateDivisionOperands] at hgo
  split at hgo
  · exact Except.noConfusion hgo
  next hcount =>
    injection hgo with hgops
    set minO := cfg.constraints.minOperand.getD 1 with hminO
    set maxO := cfg.constraints.maxOperand.getD 10 with hmaxOdef
    set maxR := cfg.constraints.maxResult with hmaxRdef
    set q := getRandomInt (max minO 0) maxR (stail2 e 0) with hqdef
    set d := getRandomInt (max minO 1) maxO (stail2 e 1) with hddef
    have hd1 : 1 ≤ d := by
      rcases le_or_lt (max minO 1) maxO with h | h
      · have := getRandomInt_ge_of_le (stail2 e 1) h
        omega
      · have := getRandomInt_ge_of_gt (stail2 e 1) h
        omega
    have hdq : ((d : Int) : ℚ) ≠ 0 := by
      exact_mod_cast (by omega : (d : Int) ≠ 0)
    rcases hdisj with ⟨hures, hops, -⟩ | ⟨idx, hupos, hlen, hlt2, hcalc, hops⟩
    · -- unknown position is the result: operands are [q * d, d]
      rw [← hgops] at hops
      refine ⟨((q * d : Int) : ℚ), ((d : Int) : ℚ), ?_, hdq, q, by push_cast; ring⟩
      simpa [toRatList] using hops
    · -- unknown position is an operand
      rw [← hgops] at hcalc hops
      rcases hcases with habs | h0 | ⟨h1, hminO1, hmaxR0⟩
      · rw [hpu, hupos] at habs
        exact UnknownPosition.noConfusion habs
      · -- operand-0 unknown: answer = (q*d)*d, operands [(q*d)*d, d]
        obtain rfl : idx = 0 := by
          rw [hpu, hupos] at h0
          exact (UnknownPosition.operand.injEq _ _).mp h0
        simp only [calculateUnknownOperand, toRatList, List.map_cons,
          List.map_nil, List.getD_cons_zero, List.getD_cons_succ,
          if_pos rfl] at hcalc
        injection hcalc with hans
        rw [hops]
        refine ⟨p.answer, ((d : Int) : ℚ), ?_, hdq, q * d, ?_⟩
        · simp [toRatList]
        · exact hans.symm
      · -- operand-1 unknown: answer = (q*d)/d = q, operands [q*d, q]
        obtain rfl : idx = 1 := by
          rw [hpu, hupos] at h1
          exact (UnknownPosition.operand.injEq _ _).mp h1
        have hq1 : 1 ≤ q := by
          rcases le_or_lt (max minO 0) maxR with h | h
          · have := getRandomInt_ge_of_le (stail2 e 0) h
            omega
          · have := getRandomInt_ge_of_gt (stail2 e 0) h
            omega
        simp only [calculateUnknownOperand, toRatList, List.map_cons,
          List.map_nil, List.getD_cons_zero, List.getD_cons_succ,
          jsDiv] at hcalc
        rw [if_neg (by decide), if_neg (by exact_mod_cast hdq)] at hcalc
        injection hcalc with hans
        have hansq : p.answer = ((q : Int) : ℚ) := by
          rw [← hans]
          push_cast
          exact mul_div_cancel_right₀ _ (by exact_mod_cast hdq)
        rw [hops]
        refine ⟨((q * d : Int) : ℚ), p.answer, ?_, ?_, d, ?_⟩
        · simp [toRatList]
        · rw [hansq]
          exact_mod_cast (by omega : (q : Int) ≠ 0)
        · rw [hansq]
          push_cast
          ring

/-- Claim C6, witness: a division config with minOperand 1 and operand-1
unknown, where the amended hypotheses are discharged on a generated
problem (operands 6 and 3, divisor 3, quotient 2). -/
theorem C6_division_safety_witness :
    ∃ a b : ℚ, (⟨.division, [6, 3], .operand 1, 3, "6 ÷ ? = 3"⟩ :
      Problem).operands = [a, b] ∧ b ≠ 0 ∧
      ∃ k : Int, a = (k : ℚ) * b := by
  exact C6_division_safety cfgC6wit entC6wit
    ⟨.division, [6, 3], .operand 1, 3, "6 ÷ ? = 3"⟩
    (by with_unfolding_all decide) rfl (by decide)
    (Or.inr (Or.inr ⟨rfl, by decide, by decide⟩))

/-- After the sync effect, the streak never exceeds the high score. -/
theorem GS2_syncHighScore_le (s : GS2.GameState) :
    (GS2.syncHighScore s).streak ≤ (GS2.syncHighScore s).highScore := by
  unfold GS2.syncHighScore GS2.gameReducer
  split
  · simp
  next h => omega

/-- A fold of synced steps keeps the streak below the high score. -/
theorem GS2_foldl_step_inv (acts : List GS2.HookAct) :
    ∀ s : GS2.GameState, s.streak ≤ s.highScore →
      (acts.foldl GS2.step s).streak ≤ (acts.foldl GS2.step s).highScore := by
  induction acts with
  | nil => intro s h; exact h
  | cons a acts ih =>
    intro s _
    simp only [List.foldl_cons]
    exact ih (GS2.step s a) (GS2_syncHighScore_le _)

/-- No reducer dispatch of a hook action lowers the high score. -/
theorem GS2_reducer_highScore (s : GS2.GameState) (a : GS2.HookAct) :
    s.highScore ≤ (GS2.gameReducer s (GS2.interp a)).highScore := by
  cases a <;> simp only [GS2.interp, GS2.gameReducer] <;>
    (try split_ifs) <;> simp

/-- The sync effect never lowers the high score. -/
theorem GS2_syncHighScore_mono (s : GS2.GameState) :
    s.highScore ≤ (GS2.syncHighScore s).highScore := by
  unfold GS2.syncHighScore GS2.gameReducer
  split
  next h => simp; omega
  next h => exact le_refl _

/-- One synced step never lowers the high score. -/
theorem GS2_step_highScore (s : GS2.GameState) (a : GS2.HookAct) :
    s.highScore ≤ (GS2.step s a).highScore :=
  le_trans (GS2_reducer_highScore s a) (GS2_syncHighScore_mono _)

/-- Claim C3: for any sequence of hook actions (updates, deletes, submits
and advances) from the initial state, streak ≤ highScore holds after every
step — in particular after every advance — and the high score never
decreases at any step. -/
theorem C3_streak_highscore_invariant (p0 : Problem) (h0 : Int)
    (acts : List GS2.HookAct) :
    (GS2.run p0 h0 acts).streak ≤ (GS2.run p0 h0 acts).highScore ∧
    ∀ a : GS2.HookAct,
      (GS2.run p0 h0 acts).highScore ≤
        (GS2.run p0 h0 (acts ++ [a])).highScore := by
  constructor
  · exact GS2_foldl_step_inv acts _ (GS2_syncHighScore_le _)
  · intro a
    unfold GS2.run
    rw [List.foldl_append]
    exact GS2_step_highScore _ a

/-- Claim C4, counterexample: from the initial state, two correct answers
bring the streak to 2; typing the wrong answer 9 (non-empty, feedback not
showing) and submitting resets the streak to 0 at submit time — the claim
that submit leaves the streak unchanged is false on this run. -/
theorem C4_streak_reset_counterexample :
    (GS2.run pAns1C4 0 actsC4pre).streak = 2 ∧
    (GS2.run pAns1C4 0 actsC4pre).currentAnswer = "9" ∧
    (GS2.run pAns1C4 0 actsC4pre).showFeedback = false ∧
    GS2.answerIsCorrect (GS2.run pAns1C4 0 actsC4pre) = false ∧
    (GS2.run pAns1C4 0 actsC4post).streak = 0 := by
  refine ⟨by with_unfolding_all decide, by with_unfolding_all decide,
    by with_unfolding_all decide, by with_unfolding_all decide,
    by with_unfolding_all decide⟩

/-- Claim C4 (amended): when submit is dispatched with a non-empty,
incorrect answer while feedback is not showing, the streak is reset to
zero by the submit transition itself (so the feedback shows 0, not the
pre-submit value), and the subsequent advance (NEXT_PROBLEM) leaves the
streak unchanged. -/
theorem C4_streak_reset_at_submit (s : GS2.GameState)
    (hne : s.currentAnswer ≠ "") (hfb : s.showFeedback = false)
    (hwrong : GS2.answerIsCorrect s = false) :
    (GS2.gameReducer s .submitAnswer).streak = 0 ∧
    ∀ p : Problem,
      (GS2.gameReducer s (.nextProblem p)).streak = s.streak := by
  constructor
  · simp [GS2.gameReducer, hne, hfb, hwrong]
  · intro p
    rfl

/-- Claim C4, witness: a concrete state with streak 5 and the wrong
answer 9 typed in; submit zeroes the streak and advance keeps it. -/
theorem C4_streak_reset_at_submit_witness :
    (GS2.gameReducer sC4wit .submitAnswer).streak = 0 ∧
    ∀ p : Problem,
      (GS2.gameReducer sC4wit (.nextProblem p)).streak = sC4wit.streak := by
  exact C4_streak_reset_at_submit sC4wit (by decide) rfl
    (by with_unfolding_all decide)

/-- Claim C7, counterexample: after a submit, celebrationPhase is
revealing, yet dispatching updateAnswer still appends the digit — the
first-version reducer does not gate UPDATE_ANSWER on the celebration
phase (that gating lives in the UI layer), so updateAnswer during
celebration is not a no-op as claimed. -/
theorem C7_update_during_celebration_counterexample :
    (GS1.run sC7init [.updateAnswer "1", .submitAnswer]).celebrationPhase =
      some .revealing ∧
    (GS1.run sC7init [.updateAnswer "1", .submitAnswer]).currentAnswer =
      "1" ∧
    (GS1.gameReducer (GS1.run sC7init [.updateAnswer "1", .submitAnswer])
      (.updateAnswer "5")).currentAnswer = "15" := by
  refine ⟨by with_unfolding_all decide, by with_unfolding_all decide,
    by with_unfolding_all decide⟩

/-- Claim C7 (amended): updateAnswer is a silent no-op on a non-digit
payload or when the answer is already 3 digits long (but it is not gated
on celebrationPhase — during celebration it still appends, the gating
being left to the UI layer); submit is a no-op on an empty answer or
whenever celebrationPhase is not idle; and hence two submits in a row
without an advance change the state only once (the reducer dispatch of
submit is idempotent). -/
theorem C7_invalid_input_noops (s : GS1.GameState) (d : String) :
    (MAX_ANSWER_LENGTH ≤ s.currentAnswer.length →
      GS1.gameReducer s (.updateAnswer d) = s) ∧
    (isSingleDigit d = false → GS1.gameReducer s (.updateAnswer d) = s) ∧
    (s.currentAnswer = "" → GS1.gameReducer s .submitAnswer = s) ∧
    (s.celebrationPhase ≠ none → GS1.gameReducer s .submitAnswer = s) ∧
    GS1.gameReducer (GS1.gameReducer s .submitAnswer) .submitAnswer =
      GS1.gameReducer s .submitAnswer := by
  refine ⟨?_, ?_, ?_, ?_, ?_⟩
  · intro h
    simp [GS1.gameReducer, h]
  · intro h
    simp [GS1.gameReducer, h]
  · intro h
    simp [GS1.gameReducer, h]
  · intro h
    simp [GS1.gameReducer, h]
  · by_cases h1 : s.currentAnswer = ""
    · simp [GS1.gameReducer, h1]
    · by_cases h2 : s.celebrationPhase = none
      · simp [GS1.gameReducer, h1, h2]
      · simp [GS1.gameReducer, h1, h2]

/-- Claim C7, witness: concrete states discharging each no-op hypothesis:
a full 3-digit answer, a non-digit payload, an empty answer at submit, a
mid-celebration submit, and the double-submit equation. -/
theorem C7_invalid_input_noops_witness :
    GS1.gameReducer (⟨pAns1C7, "123", none, none⟩ : GS1.GameState)
      (.updateAnswer "7") = ⟨pAns1C7, "123", none, none⟩ ∧
    GS1.gameReducer (⟨pAns1C7, "1", none, none⟩ : GS1.GameState)
      (.updateAnswer "x") = ⟨pAns1C7, "1", none, none⟩ ∧
    GS1.gameReducer (⟨pAns1C7, "", none, none⟩ : GS1.GameState)
      .submitAnswer = ⟨pAns1C7, "", none, none⟩ ∧
    GS1.gameReducer (⟨pAns1C7, "1", none, some .revealing⟩ :
      GS1.GameState) .submitAnswer =
      ⟨pAns1C7, "1", none, some .revealing⟩ ∧
    GS1.gameReducer (GS1.gameReducer
        (⟨pAns1C7, "1", none, none⟩ : GS1.GameState) .submitAnswer)
      .submitAnswer =
      GS1.gameReducer (⟨pAns1C7, "1", none, none⟩ : GS1.GameState)
        .submitAnswer := by
  refine ⟨(C7_invalid_input_noops _ "7").1 (by decide),
    (C7_invalid_input_noops _ "x").2.1 (by decide),
    (C7_invalid_input_noops _ "x").2.2.1 rfl,
    (C7_invalid_input_noops _ "x").2.2.2.1 (by decide),
    (C7_invalid_input_noops (⟨pAns1C7, "1", none, none⟩ : GS1.GameState)
      "x").2.2.2.2⟩

/-- Claim C9: the persistence adapter falls back to the supplied default
whenever window.localStorage is missing, getItem throws, the key is
absent, or the stored value fails to parse (the empty string is also
falsy and falls back); it never throws, being a total function of the
storage environment; and setValue always updates the in-memory value,
even when the storage write fails. -/
theorem C9_persistence_fallback {T : Type} (parse : String → Option T)
    (serialize : T → String) (env : LS.StorageEnv) (key : String)
    (dflt v : T) :
    (env.hasWindow = false →
      LS.useLocalStorageInit parse env key dflt = dflt) ∧
    (env.getFails = true →
      LS.useLocalStorageInit parse env key dflt = dflt) ∧
    (LS.getItem env key = .ok none →
      LS.useLocalStorageInit parse env key dflt = dflt) ∧
    (∀ s, LS.getItem env key = .ok (some s) → parse s = none →
      LS.useLocalStorageInit parse env key dflt = dflt) ∧
    (LS.setValue serialize env key v).1 = v := by
  refine ⟨?_, ?_, ?_, ?_, ?_⟩
  · intro h
    simp [LS.useLocalStorageInit, h]
  · intro h
    by_cases hw : env.hasWindow
    · simp [LS.useLocalStorageInit, LS.getItem, h, hw]
    · simp [LS.useLocalStorageInit, hw]
  · intro h
    by_cases hw : env.hasWindow
    · simp [LS.useLocalStorageInit, h, hw]
    · simp [LS.useLocalStorageInit, hw]
  · intro s h hp
    by_cases hw : env.hasWindow
    · by_cases hs : s = ""
      · simp [LS.useLocalStorageInit, h, hw, hs]
      · simp [LS.useLocalStorageInit, h, hw, hs, hp]
    · simp [LS.useLocalStorageInit, hw]
  · unfold LS.setValue
    split_ifs
    · cases LS.setItem env key (serialize v) <;> rfl
    · rfl

/-- Claim C9, witness: concrete environments for each failure mode — no
window, a throwing getItem, an absent key, an unparsable stored value —
all load the default 7, and a failing write still returns the in-memory
value 9. -/
theorem C9_persistence_fallback_witness :
    LS.useLocalStorageInit (fun _ => (none : Option Int))
      ⟨false, [], false, false⟩ "k" 7 = 7 ∧
    LS.useLocalStorageInit (fun _ => (none : Option Int))
      ⟨true, [], true, false⟩ "k" 7 = 7 ∧
    LS.useLocalStorageInit (fun _ => (none : Option Int))
      ⟨true, [], false, false⟩ "k" 7 = 7 ∧
    LS.useLocalStorageInit (fun _ => (none : Option Int))
      ⟨true, [("k", "bad")], false, false⟩ "k" 7 = 7 ∧
    (LS.setValue (fun n : Int => toString n)
      ⟨true, [], false, true⟩ "k" 9).1 = 9 := by
  refine ⟨(C9_persistence_fallback _ (fun n => toString n) _ "k" 7 7).1 rfl,
    (C9_persistence_fallback _ (fun n => toString n) _ "k" 7 7).2.1 rfl,
    (C9_persistence_fallback _ (fun n => toString n) _ "k" 7 7).2.2.1
      (by decide),
    (C9_persistence_fallback _ (fun n => toString n) _ "k" 7 7).2.2.2.1
      "bad" (by decide) rfl,
    (C9_persistence_fallback (fun _ => (none : Option Int))
      (fun n => toString n) ⟨true, [], false, true⟩ "k" 7 9).2.2.2.2⟩

/-- Claim C10: the reducer is a pure deterministic function of the state
and action — dispatching updateAnswer, deleteDigit or submit through the
hook gives identical results under any two entropy streams, and the only
entropy-dependent action is nextProblem, whose randomness enters solely
through the problem payload built by generateProblem outside the reducer
and handed to the reducer as the NEXT_PROBLEM action. -/
theorem C10_reducer_pure_deterministic (cfg : DifficultyConfig)
    (s : GS1.GameState) (e1 e2 : Entropy) :
    (∀ d, GS1.hookDispatch cfg e1 s (.updateAnswer d) =
      GS1.hookDispatch cfg e2 s (.updateAnswer d)) ∧
    GS1.hookDispatch cfg e1 s .deleteLastDigit =
      GS1.hookDispatch cfg e2 s .deleteLastDigit ∧
    GS1.hookDispatch cfg e1 s .submitAnswer =
      GS1.hookDispatch cfg e2 s .submitAnswer ∧
    ∀ e : Entropy, GS1.hookDispatch cfg e s .nextProblem =
      (generateProblem cfg e).map
        (fun p => GS1.gameReducer s (.nextProblem p)) := by
  exact ⟨fun d => rfl, rfl, rfl, fun e => rfl⟩

end MathStreak
